import Mathlib

/-!
Shallow embedding of the car-image validation repository
(`version1_yolo_opencv`, `version2_yolo_sam_classifier`,
`version3_prompt_engineering`) and proofs about its heuristic decision
core: criterion evaluators, verdict aggregation, segmentation mask and
the vision-model fallback path.

Images are modelled as a pixel grid of three-channel intensities,
bounding boxes as four integers, Python float division over integer
quantities as exact division in `ℚ`, and the external collaborators
(detector, JSON parser) as inputs to the functions that consume them.
-/

namespace CarVal

/-- One pixel: three colour channel intensities (OpenCV BGR order). -/
structure Pixel where
  c0 : Nat
  c1 : Nat
  c2 : Nat
deriving DecidableEq

/-- An image: height, width and a pixel grid indexed row-major as `pix y x`. -/
structure Image where
  h : Nat
  w : Nat
  pix : Nat → Nat → Pixel

/-- A detector bounding box `(x1, y1, x2, y2)` in pixel coordinates. -/
structure BBox where
  x1 : Int
  y1 : Int
  x2 : Int
  y2 : Int
deriving DecidableEq

/-- Row-major list of all `(y, x)` coordinates of a `h × w` grid. -/
def grid (h w : Nat) : List (Nat × Nat) :=
  (List.range h).flatMap fun y => (List.range w).map fun x => (y, x)

/-- Whether grid coordinate `(y, x)` lies inside the bounding box, i.e. in
the numpy slice `[y1:y2, x1:x2]` for an in-bounds box. -/
def insideBox (b : BBox) (y x : Nat) : Bool :=
  decide (b.x1 ≤ (x : Int) ∧ (x : Int) < b.x2 ∧ b.y1 ≤ (y : Int) ∧ (y : Int) < b.y2)

/-- Mean of a list of channel intensities (`np.mean` over one channel). -/
def avgChannel (l : List Nat) : ℚ :=
  ((l.sum : Nat) : ℚ) / ((l.length : Nat) : ℚ)

namespace V1

/-- Embeds `version1_yolo_opencv/utils.py: check_size_ratio` — box area over image
area must be at least 0.25. -/
def check_size_ratio (b : BBox) (h w : Nat) : Bool :=
  let box_area : Int := (b.x2 - b.x1) * (b.y2 - b.y1)
  let img_area : Nat := h * w
  decide ((box_area : ℚ) / ((img_area : Nat) : ℚ) ≥ 1/4)

/-- Background pixels of `check_background_white`: the pixels where the
ones-mask with the box region zeroed is still 1, i.e. outside the box. -/
def bgPixels (img : Image) (b : BBox) : List Pixel :=
  ((grid img.h img.w).filter fun yx => !insideBox b yx.1 yx.2).map fun yx =>
    img.pix yx.1 yx.2

/-- Embeds `version1_yolo_opencv/utils.py: check_background_white` (colour branch):
empty background fails, otherwise every channel mean must exceed 180. -/
def check_background_white (img : Image) (b : BBox) : Bool :=
  let bg := bgPixels img b
  if bg.length = 0 then false
  else
    decide (avgChannel (bg.map Pixel.c0) > 180 ∧
            avgChannel (bg.map Pixel.c1) > 180 ∧
            avgChannel (bg.map Pixel.c2) > 180)

/-- Aspect ratio as computed by `heuristic_orientation_check`:
`width / height if height > 0 else 0`. -/
def aspectRatio (b : BBox) : ℚ :=
  let width := b.x2 - b.x1
  let height := b.y2 - b.y1
  if height > 0 then (width : ℚ) / (height : ℚ) else 0

/-- Embeds `version1_yolo_opencv/utils.py: heuristic_orientation_check` — side view
iff aspect ratio at least 1.8. -/
def heuristic_orientation_check (b : BBox) : Bool :=
  decide (aspectRatio b ≥ 1.8)

/-- Embeds `version1_yolo_opencv/utils.py: check_car_orientation_left` — the box
centre `(x1+x2)//2` relative to image width must lie in `[0.3, 0.8]`. -/
def check_car_orientation_left (b : BBox) (imageWidth : Nat) : Bool :=
  let car_center_x : Int := (b.x1 + b.x2).fdiv 2
  let relative_position : ℚ := (car_center_x : ℚ) / ((imageWidth : Nat) : ℚ)
  decide (0.3 ≤ relative_position ∧ relative_position ≤ 0.8)

/-- The five-key criteria dict of `version1_yolo_opencv/main.py`. -/
structure Criteria where
  contains_car : Bool
  side_view : Bool
  white_background : Bool
  proper_size : Bool
  correct_orientation : Bool
deriving DecidableEq

/-- All five criteria true. -/
def Criteria.allTrue (c : Criteria) : Bool :=
  c.contains_car && c.side_view && c.white_background && c.proper_size &&
    c.correct_orientation

/-- Result record of `version1_yolo_opencv/main.py: verify_image` restricted
to the fields the decision logic produces (timestamp, model name and path
are plumbing). -/
structure VResult where
  result : String
  criteria : Option Criteria
  failure_reasons : Option (List String)
deriving DecidableEq

/-- Embeds `version1_yolo_opencv/main.py: verify_image` after image loading and the
quality gate, as a function of the detector outcome (`detect_car` is the
external Object Locator; `none` models `not is_car or bbox is None`). -/
def verify_image (img : Image) (detection : Option BBox) : VResult :=
  match detection with
  | none =>
      { result := "No"
        criteria := some ⟨false, false, false, false, false⟩
        failure_reasons := some ["No car detected in image"] }
  | some bbox =>
      let size_ok := check_size_ratio bbox img.h img.w
      let background_white := check_background_white img bbox
      let side_view := heuristic_orientation_check bbox
      let facing_left := check_car_orientation_left bbox img.w
      let failure_reasons : List String :=
        (if size_ok then [] else
          ["Car does not occupy sufficient portion of image (< 1/4)"]) ++
        (if background_white then [] else
          ["Background is not sufficiently white"]) ++
        (if side_view then [] else
          ["Car does not appear to be in side view (width/height ratio)"]) ++
        (if facing_left then [] else
          ["Car does not appear to be facing left"])
      -- `all_passed = all([is_car, ...])` with `is_car` true on this branch
      let all_passed := size_ok && background_white && side_view && facing_left
      { result := if all_passed then "Yes" else "No"
        criteria := some ⟨true, side_view, background_white, size_ok, facing_left⟩
        failure_reasons := if all_passed then none else some failure_reasons }

end V1

namespace V2

/-- A pixel at least 240 in every channel — the "very white" test of
`sam_module.py: segment_car` (`np.all(car_region >= white_threshold, axis=2)`
with `white_threshold = 240`). -/
def veryWhite (p : Pixel) : Bool :=
  decide (240 ≤ p.c0 ∧ 240 ≤ p.c1 ∧ 240 ≤ p.c2)

/-- Grid coordinates of the numpy slice `image[y1:y2, x1:x2]` (the box
clipped to the image, for an in-bounds box just the box interior). -/
def boxRegion (img : Image) (b : BBox) : List (Nat × Nat) :=
  (grid img.h img.w).filter fun yx => insideBox b yx.1 yx.2

/-- Embeds `version2_yolo_sam_classifier/sam_module.py: segment_car` — the mask over
the `img.h × img.w` grid: zero outside the box; inside the box, car except
very white pixels, unless that exclusion leaves fewer than 60% of the box
pixels, in which case the whole box is car. -/
def segment_car (img : Image) (b : BBox) : Nat → Nat → Bool :=
  let region := boxRegion img b
  let total_pixels := region.length
  let car_pixels := (region.filter fun yx => !veryWhite (img.pix yx.1 yx.2)).length
  let useFullBox : Bool := decide (((car_pixels : Nat) : ℚ) < ((total_pixels : Nat) : ℚ) * 0.6)
  fun y x =>
    decide (y < img.h) && decide (x < img.w) && insideBox b y x &&
      (useFullBox || !veryWhite (img.pix y x))

/-- Embeds `version2_yolo_sam_classifier/utils.py: check_area_ratio` — car pixels of
the mask over total pixels must be at least 0.20. -/
def check_area_ratio (h w : Nat) (mask : Nat → Nat → Bool) : Bool :=
  let total_pixels := h * w
  let car_pixels := ((grid h w).filter fun yx => mask yx.1 yx.2).length
  decide (((car_pixels : Nat) : ℚ) / ((total_pixels : Nat) : ℚ) ≥ 0.20)

/-- Background pixels of `check_white_background`: `image[mask == 0]`. -/
def bgPixelsMask (img : Image) (mask : Nat → Nat → Bool) : List Pixel :=
  ((grid img.h img.w).filter fun yx => !mask yx.1 yx.2).map fun yx =>
    img.pix yx.1 yx.2

/-- Embeds `version2_yolo_sam_classifier/utils.py: check_white_background` — empty
background fails; otherwise every channel mean must exceed 200 and the
spread between the largest and smallest channel mean must be below 20. -/
def check_white_background (img : Image) (mask : Nat → Nat → Bool) : Bool :=
  let bg := bgPixelsMask img mask
  if bg.length = 0 then false
  else
    let a0 := avgChannel (bg.map Pixel.c0)
    let a1 := avgChannel (bg.map Pixel.c1)
    let a2 := avgChannel (bg.map Pixel.c2)
    let is_bright := decide (a0 > 200 ∧ a1 > 200 ∧ a2 > 200)
    let is_balanced := decide (max a0 (max a1 a2) - min a0 (min a1 a2) < 20)
    is_bright && is_balanced

/-- Embeds `aspect_ratio = width / height if height > 0 else 0` of
`orientation_classifier.py: classify_orientation`. -/
def aspect_ratio_of (b : BBox) : ℚ :=
  let width := b.x2 - b.x1
  let height := b.y2 - b.y1
  if height > 0 then (width : ℚ) / (height : ℚ) else 0

/-- Embeds `relative_position = ((x1 + x2) // 2) / image_width` of
`orientation_classifier.py` (Python floor division, then float division). -/
def relative_position (imageWidth : Nat) (b : BBox) : ℚ :=
  (((b.x1 + b.x2).fdiv 2 : Int) : ℚ) / ((imageWidth : Nat) : ℚ)

/-- Embeds `space_ratio = left_space / (right_space + 1)` of
`orientation_classifier.py`, with `left_space = x1` and
`right_space = image_width - x2`. -/
def space_ratio (imageWidth : Nat) (b : BBox) : ℚ :=
  ((b.x1 : Int) : ℚ) / ((((imageWidth : Int) - b.x2 : Int) : ℚ) + 1)

/-- The `left_facing_factors` entry `classify_orientation` records in its
confidence scores when (and only when) side view passed. -/
structure LeftFacingFactors where
  position_factor : Bool
  left_bias : Bool
  left_space : Int
  right_space : Int
  facing_score : Nat
  space_ratio : ℚ
deriving DecidableEq

/-- Result dict of `classify_orientation`: the two booleans plus the
confidence scores it always records and the optional left-facing factors. -/
structure OrientationResult where
  side_view : Bool
  facing_left : Bool
  aspect_ratio : ℚ
  position : ℚ
  left_facing_factors : Option LeftFacingFactors
deriving DecidableEq

/-- Embeds `version2_yolo_sam_classifier/orientation_classifier.py:
classify_orientation` — side view by the aspect-ratio bands `[2.9, ∞)` and
`[2.15, 2.2]`; facing left only evaluated when side view passed, by a score:
+1 for `relative_position ∈ [0.48, 0.51]`, then +2 for `space_ratio ≤ 0.15`,
else +2 for `space_ratio ∈ [0.7, 1.0]`, else +1 for
`space_ratio ∈ [0.4, 0.69]`; facing left iff the score reaches 2. -/
def classify_orientation (imageWidth : Nat) (b : BBox) : OrientationResult :=
  let aspect_ratio : ℚ := aspect_ratio_of b
  let rel := relative_position imageWidth b
  let side_view : Bool :=
    if aspect_ratio ≥ 2.9 then true
    else if 2.15 ≤ aspect_ratio ∧ aspect_ratio ≤ 2.2 then true
    else false
  if side_view then
    let sr := space_ratio imageWidth b
    let facing_left_score : Nat :=
      (if 0.48 ≤ rel ∧ rel ≤ 0.51 then 1 else 0) +
      (if sr ≤ 0.15 then 2
       else if 0.7 ≤ sr ∧ sr ≤ 1.0 then 2
       else if 0.4 ≤ sr ∧ sr ≤ 0.69 then 1
       else 0)
    { side_view := true
      facing_left := decide (facing_left_score ≥ 2)
      aspect_ratio := aspect_ratio
      position := rel
      left_facing_factors := some
        { position_factor := decide (0.48 ≤ rel ∧ rel ≤ 0.51)
          left_bias := true
          left_space := b.x1
          right_space := (imageWidth : Int) - b.x2
          facing_score := facing_left_score
          space_ratio := sr } }
  else
    { side_view := false
      facing_left := false
      aspect_ratio := aspect_ratio
      position := rel
      left_facing_factors := none }

/-- The six-key criteria dict of `version2_yolo_sam_classifier/main.py`. -/
structure Criteria where
  contains_car : Bool
  proper_segmentation : Bool
  white_background : Bool
  proper_size : Bool
  side_view : Bool
  facing_left : Bool
deriving DecidableEq

/-- All six criteria true. -/
def Criteria.allTrue (c : Criteria) : Bool :=
  c.contains_car && c.proper_segmentation && c.white_background &&
    c.proper_size && c.side_view && c.facing_left

/-- Output mode of the version-2 pipeline. -/
inductive Mode where
  | simple
  | detailed
deriving DecidableEq

/-- Result record of `version2_yolo_sam_classifier/main.py: verify_image`
restricted to the decision fields. -/
structure VResult where
  result : String
  criteria : Option Criteria
  failure_reasons : Option (List String)
deriving DecidableEq

/-- Embeds `version2_yolo_sam_classifier/main.py: verify_image` after image loading
and the quality gate, as a function of the detector outcome (`detect_car`
is the external Object Locator). In detailed mode the criteria dict is
attached; failure reasons are attached exactly when the verdict is not a
pass. -/
def verify_image (img : Image) (detection : Option BBox) (mode : Mode) : VResult :=
  match detection with
  | none =>
      { result := "No"
        criteria :=
          if mode = Mode.detailed then
            some ⟨false, false, false, false, false, false⟩
          else none
        failure_reasons := some ["No car detected in image"] }
  | some bbox =>
      let mask := segment_car img bbox
      let area_ok := check_area_ratio img.h img.w mask
      let background_white := check_white_background img mask
      let orientation_result := classify_orientation img.w bbox
      let side_view := orientation_result.side_view
      let facing_left := orientation_result.facing_left
      let failure_reasons : List String :=
        (if area_ok then [] else
          ["Car does not occupy sufficient portion of image (< 20%)"]) ++
        (if background_white then [] else
          ["Background is not sufficiently white"]) ++
        (if side_view then [] else
          ["Car does not appear to be in side view"]) ++
        (if facing_left then [] else
          ["Car does not appear to be facing left"])
      -- `all_passed = all([is_car, ...])` with `is_car` true on this branch
      let all_passed := area_ok && background_white && side_view && facing_left
      { result := if all_passed then "Yes" else "No"
        criteria :=
          if mode = Mode.detailed then
            some ⟨true, true, background_white, area_ok, side_view, facing_left⟩
          else none
        failure_reasons := if all_passed then none else some failure_reasons }

end V2

namespace V3

/-- The shape of a successfully parsed JSON response of the vision model,
restricted to the keys `check_car_image` inspects (the criteria dict has
the same five keys as version 1). -/
structure Parsed where
  result : String
  criteria : Option V1.Criteria
  failure_reasons : Option (List String)
  error : Option String
deriving DecidableEq

/-- Result record of `version3_prompt_engineering/gpt_vision_checker.py`. -/
structure VResult where
  result : String
  criteria : Option V1.Criteria
  failure_reasons : Option (List String)
  error : Option String
deriving DecidableEq

/-- Embeds `version3_prompt_engineering/gpt_vision_checker.py: check_car_image`
from the point where the (external) JSON parser has run on the stripped
model text: `none` models a `json.JSONDecodeError`, `some` a parsed
response, on which the backward-compatibility fixup runs. -/
def check_car_image (parsed : Option Parsed) : VResult :=
  match parsed with
  | none =>
      { result := "No"
        criteria := some ⟨false, false, false, false, false⟩
        failure_reasons := some ["Failed to parse GPT response"]
        error := some "JSON parsing failed" }
  | some r =>
      if r.criteria = none ∧ (r.result = "Yes" ∨ r.result = "No") then
        let yes := r.result = "Yes"
        { result := r.result
          criteria := some ⟨yes, yes, yes, yes, yes⟩
          failure_reasons :=
            if r.result = "No" then some ["Detailed analysis not available"]
            else r.failure_reasons
          error := r.error }
      else
        { result := r.result
          criteria := r.criteria
          failure_reasons := r.failure_reasons
          error := r.error }

end V3

/-! Spec-side characterizations, written from the specification text, to be
compared with the functions embedded from the source. -/

/-- All five version-1 criteria true, lifted to the optional criteria
field (an absent criteria dict counts as not all true). -/
def allTrueOpt1 : Option V1.Criteria → Bool
  | none => false
  | some c => c.allTrue

/-- All six version-2 criteria true, lifted to the optional criteria
field. -/
def allTrueOpt2 : Option V2.Criteria → Bool
  | none => false
  | some c => c.allTrue

/-- The failure-reason list the spec prescribes for version 1: check the
criteria in the fixed order size, background, side view, facing direction,
and append one fixed sentence per failing criterion. -/
def specReasonsV1 (size_ok background_white side_view facing_left : Bool) :
    List String :=
  (if size_ok then [] else
    ["Car does not occupy sufficient portion of image (< 1/4)"]) ++
  (if background_white then [] else
    ["Background is not sufficiently white"]) ++
  (if side_view then [] else
    ["Car does not appear to be in side view (width/height ratio)"]) ++
  (if facing_left then [] else
    ["Car does not appear to be facing left"])

/-- The failure-reason list the spec prescribes for version 2, in the same
fixed order with that pipeline's sentences. -/
def specReasonsV2 (area_ok background_white side_view facing_left : Bool) :
    List String :=
  (if area_ok then [] else
    ["Car does not occupy sufficient portion of image (< 20%)"]) ++
  (if background_white then [] else
    ["Background is not sufficiently white"]) ++
  (if side_view then [] else
    ["Car does not appear to be in side view"]) ++
  (if facing_left then [] else
    ["Car does not appear to be facing left"])

/-- The facing score as the spec states it: the sum of +1 for
`relative_position ∈ [0.48, 0.51]`, +2 for `space_ratio ≤ 0.15`, +2 for
`space_ratio ∈ [0.7, 1.0]`, +1 for `space_ratio ∈ [0.4, 0.69]`, and +0
otherwise. -/
def specFacingScore (imageWidth : Nat) (b : BBox) : Nat :=
  let rel := V2.relative_position imageWidth b
  let sr := V2.space_ratio imageWidth b
  (if 0.48 ≤ rel ∧ rel ≤ 0.51 then 1 else 0) +
  (if sr ≤ 0.15 then 2 else 0) +
  (if 0.7 ≤ sr ∧ sr ≤ 1.0 then 2 else 0) +
  (if 0.4 ≤ sr ∧ sr ≤ 0.69 then 1 else 0)

/-- The spec's safety-valve trigger for the default segmentation: the white
pixel exclusion would remove more than 40% of the box's pixels. -/
def specExclusionTooAggressive (img : Image) (b : BBox) : Bool :=
  let region := V2.boxRegion img b
  let total_pixels := region.length
  let car_pixels :=
    (region.filter fun yx => !V2.veryWhite (img.pix yx.1 yx.2)).length
  decide (((total_pixels : Nat) : ℚ) - ((car_pixels : Nat) : ℚ) >
    ((total_pixels : Nat) : ℚ) * (40 / 100))

/-- The background pixel set is non-empty, the spec's precondition for the
whiteness test to be able to pass. -/
def specBgNonempty1 (img : Image) (b : BBox) : Bool :=
  !(V1.bgPixels img b).isEmpty

/-- Non-empty background pixel set for the mask-based pipeline. -/
def specBgNonempty2 (img : Image) (mask : Nat → Nat → Bool) : Bool :=
  !(V2.bgPixelsMask img mask).isEmpty

/-- Every channel mean of the pixel list strictly exceeds the threshold. -/
def specBright (l : List Pixel) (threshold : ℚ) : Bool :=
  decide (avgChannel (l.map Pixel.c0) > threshold ∧
          avgChannel (l.map Pixel.c1) > threshold ∧
          avgChannel (l.map Pixel.c2) > threshold)

/-- The spread between the largest and smallest channel mean stays below
the balance threshold. -/
def specBalanced (l : List Pixel) (threshold : ℚ) : Bool :=
  let a0 := avgChannel (l.map Pixel.c0)
  let a1 := avgChannel (l.map Pixel.c1)
  let a2 := avgChannel (l.map Pixel.c2)
  decide (max a0 (max a1 a2) - min a0 (min a1 a2) < threshold)

/-! Concrete inputs used by counterexamples and witnesses. -/

/-- A 1×2 all-black image. -/
def blackImg : Image := ⟨1, 2, fun _ _ => ⟨0, 0, 0⟩⟩

/-- A 1×2 image: a dark pixel at `x = 0`, a bright warm-tinted-free pixel of
intensity 190 in every channel at `x = 1`. -/
def tintImg : Image :=
  ⟨1, 2, fun _ x => if x = 0 then ⟨10, 10, 10⟩ else ⟨190, 190, 190⟩⟩

/-- A mask marking only the pixel column `x = 0` as car. -/
def carMaskLeft : Nat → Nat → Bool := fun _ x => x = 0

/-- A unit bounding box over the pixel `(0, 0)`. -/
def unitBox : BBox := ⟨0, 0, 1, 1⟩

/-! Shared helper lemmas. -/

/-- The two verdict strings differ. -/
theorem no_ne_yes : ("No" : String) ≠ "Yes" := by decide

/-! ### Theorems for the claims -/

/-- C5: the simple pipeline accepts side view iff the aspect ratio is at
least 1.8; the orientation-classifier pipeline accepts it iff the aspect
ratio is at least 2.9 or lies in the band `[2.15, 2.2]`, so every other
ratio (including the 2.3–2.7 mid-range) is rejected. -/
theorem c5_side_view_thresholds (b : BBox) (imageWidth : Nat) :
    (V1.heuristic_orientation_check b = true ↔ V1.aspectRatio b ≥ 1.8) ∧
    ((V2.classify_orientation imageWidth b).side_view = true ↔
      (V2.aspect_ratio_of b ≥ 2.9 ∨
        (2.15 ≤ V2.aspect_ratio_of b ∧ V2.aspect_ratio_of b ≤ 2.2))) := by
  constructor
  · simp [V1.heuristic_orientation_check]
  · unfold V2.classify_orientation
    by_cases h1 : V2.aspect_ratio_of b ≥ 2.9
    · simp [h1]
    · by_cases h2 : 2.15 ≤ V2.aspect_ratio_of b ∧ V2.aspect_ratio_of b ≤ 2.2
      · simp [h1, h2]
      · simp [h1, h2]

/-- C10: a zero-height box (`y2 = y1`) raises no division error in either
side-view evaluator: the aspect ratio is taken as 0 and side view fails. -/
theorem c10_zero_height_safe (b : BBox) (imageWidth : Nat)
    (h : b.y2 = b.y1) :
    V1.aspectRatio b = 0 ∧ V1.heuristic_orientation_check b = false ∧
    V2.aspect_ratio_of b = 0 ∧
    (V2.classify_orientation imageWidth b).side_view = false := by
  have hz : b.y2 - b.y1 = 0 := by omega
  have h1 : V1.aspectRatio b = 0 := by
    unfold V1.aspectRatio
    rw [hz]
    norm_num
  have h2 : V2.aspect_ratio_of b = 0 := by
    unfold V2.aspect_ratio_of
    rw [hz]
    norm_num
  refine ⟨h1, ?_, h2, ?_⟩
  · unfold V1.heuristic_orientation_check
    rw [h1]
    norm_num
  · unfold V2.classify_orientation
    rw [h2]
    norm_num

/-- Witness for C10 at the concrete degenerate box `(1, 3, 9, 3)`. -/
theorem c10_zero_height_safe_witness :
    V1.aspectRatio ⟨1, 3, 9, 3⟩ = 0 ∧
    V1.heuristic_orientation_check ⟨1, 3, 9, 3⟩ = false ∧
    V2.aspect_ratio_of ⟨1, 3, 9, 3⟩ = 0 ∧
    (V2.classify_orientation 10 ⟨1, 3, 9, 3⟩).side_view = false :=
  c10_zero_height_safe ⟨1, 3, 9, 3⟩ 10 (by decide)

/-- C3 counterexample: on a no-detection outcome the version-1 pipeline
does attach a criteria dict (all false) to its "No" result, contradicting
the claim that no CriterionSet is present. -/
theorem c3_counterexample_criteria_present :
    (V1.verify_image blackImg none).result = "No" ∧
    (V1.verify_image blackImg none).failure_reasons =
      some ["No car detected in image"] ∧
    (V1.verify_image blackImg none).criteria ≠ none := by decide

/-- C3 (amended): on a no-detection outcome both pipelines return a "No"
verdict with failure reasons `["No car detected in image"]`; version 1
attaches an all-false criteria dict, and version 2 attaches an all-false
criteria dict in detailed mode and omits it in simple mode. -/
theorem c3_no_detection_verdict (img : Image) (mode : V2.Mode) :
    V1.verify_image img none =
      { result := "No"
        criteria := some ⟨false, false, false, false, false⟩
        failure_reasons := some ["No car detected in image"] } ∧
    (V2.verify_image img none mode).result = "No" ∧
    (V2.verify_image img none mode).failure_reasons =
      some ["No car detected in image"] ∧
    (V2.verify_image img none mode).criteria =
      (if mode = V2.Mode.detailed then
        some ⟨false, false, false, false, false, false⟩
      else none) :=
  ⟨rfl, rfl, rfl, rfl⟩

/-- C8 counterexample: the parse-failure fallback of the vision-model
adapter words its failure reason "Failed to parse GPT response", not
"Failed to parse model response" as claimed. -/
theorem c8_counterexample_wording :
    (V3.check_car_image none).result = "No" ∧
    (V3.check_car_image none).error = some "JSON parsing failed" ∧
    (V3.check_car_image none).failure_reasons ≠
      some ["Failed to parse model response"] := by decide

/-- C8 (amended): when the vision-model response cannot be parsed as JSON,
the adapter returns the deterministic fallback: result "No", all five
criteria false, failure reasons `["Failed to parse GPT response"]` and
error "JSON parsing failed"; no parse exception reaches the caller. -/
theorem c8_parse_failure_fallback :
    V3.check_car_image none =
      { result := "No"
        criteria := some ⟨false, false, false, false, false⟩
        failure_reasons := some ["Failed to parse GPT response"]
        error := some "JSON parsing failed" } := rfl

/-- The code's 60% keep test and the spec's "removes more than 40%" test
agree on any pixel counts. -/
theorem keep_test_eq_removal_test (c t : Nat) :
    decide (((c : Nat) : ℚ) < ((t : Nat) : ℚ) * 0.6) =
      decide (((t : Nat) : ℚ) - ((c : Nat) : ℚ) > ((t : Nat) : ℚ) * (40 / 100)) := by
  rw [decide_eq_decide]
  constructor <;> intro h <;> · norm_num at h ⊢; linarith

/-- C7: the default segmentation marks as car exactly the in-grid pixels
inside the bounding box that are not at least 240 in every channel, unless
that exclusion would remove more than 40% of the box's pixels, in which
case every pixel of the box is car; pixels outside the box are never
car. -/
theorem c7_segment_car_characterization (img : Image) (b : BBox) (y x : Nat) :
    V2.segment_car img b y x =
      (decide (y < img.h) && decide (x < img.w) && insideBox b y x &&
        (specExclusionTooAggressive img b || !V2.veryWhite (img.pix y x))) := by
  simp only [V2.segment_car, specExclusionTooAggressive]
  rw [keep_test_eq_removal_test]

/-- The sequential space-ratio scoring of `classify_orientation` equals the
spec's sum of contributions over the (pairwise disjoint) bands. -/
theorem facing_score_chain_eq (rel sr : ℚ) :
    ((if 0.48 ≤ rel ∧ rel ≤ 0.51 then 1 else 0) +
     (if sr ≤ 0.15 then 2
      else if 0.7 ≤ sr ∧ sr ≤ 1.0 then 2
      else if 0.4 ≤ sr ∧ sr ≤ 0.69 then 1
      else 0) : Nat) =
    (if 0.48 ≤ rel ∧ rel ≤ 0.51 then 1 else 0) +
    (if sr ≤ 0.15 then 2 else 0) +
    (if 0.7 ≤ sr ∧ sr ≤ 1.0 then 2 else 0) +
    (if 0.4 ≤ sr ∧ sr ≤ 0.69 then 1 else 0) := by
  have d12 : sr ≤ 0.15 → ¬(0.7 ≤ sr ∧ sr ≤ 1.0) := by
    intro h hc
    have := hc.1
    norm_num at this h
    linarith
  have d13 : sr ≤ 0.15 → ¬(0.4 ≤ sr ∧ sr ≤ 0.69) := by
    intro h hc
    have := hc.1
    norm_num at this h
    linarith
  have d23 : (0.7 ≤ sr ∧ sr ≤ 1.0) → ¬(0.4 ≤ sr ∧ sr ≤ 0.69) := by
    intro h hc
    have h1 := h.1
    have h2 := hc.2
    norm_num at h1 h2
    linarith
  by_cases h1 : sr ≤ 0.15
  · simp [h1, d12 h1, d13 h1]
  · by_cases h2 : 0.7 ≤ sr ∧ sr ≤ 1.0
    · simp [h1, h2, d23 h2]
    · by_cases h3 : 0.4 ≤ sr ∧ sr ≤ 0.69
      · simp [h1, h2, h3]
      · simp [h1, h2, h3]

/-- C4: in the orientation-classifier pipeline, facing left is evaluated
only when side view already passed — the left-facing factors are recorded
exactly then, and otherwise facing left is false — and when evaluated it
holds iff the accumulated facing score (per the spec's band contributions
on relative position and space ratio) reaches 2. -/
theorem c4_facing_left_scored (imageWidth : Nat) (b : BBox) :
    ((V2.classify_orientation imageWidth b).facing_left =
      ((V2.classify_orientation imageWidth b).side_view &&
        decide (2 ≤ specFacingScore imageWidth b))) ∧
    ((V2.classify_orientation imageWidth b).left_facing_factors.isSome =
      (V2.classify_orientation imageWidth b).side_view) := by
  unfold V2.classify_orientation specFacingScore
  by_cases h1 : V2.aspect_ratio_of b ≥ 2.9
  · simp only [h1, if_true, if_pos, ite_true, Option.isSome_some, Bool.true_and,
      ge_iff_le]
    rw [facing_score_chain_eq]
    simp [ge_iff_le]
  · by_cases h2 : 2.15 ≤ V2.aspect_ratio_of b ∧ V2.aspect_ratio_of b ≤ 2.2
    · simp only [h1, h2, if_false, if_true, ite_true, ite_false,
        Option.isSome_some, Bool.true_and, ge_iff_le]
      rw [facing_score_chain_eq]
      simp [ge_iff_le]
    · simp [h1, h2]

/-- C6 counterexample: a background averaging (190, 190, 190) — brighter
than 180 in every channel and perfectly balanced — still fails the
mask-based whiteness check, because that check requires every channel mean
to exceed 200, not 180 as claimed. -/
theorem c6_counterexample_brightness_threshold :
    V2.check_white_background tintImg carMaskLeft = false ∧
    specBgNonempty2 tintImg carMaskLeft = true ∧
    specBright (V2.bgPixelsMask tintImg carMaskLeft) 180 = true ∧
    specBalanced (V2.bgPixelsMask tintImg carMaskLeft) 20 = true := by
  have hl : V2.bgPixelsMask tintImg carMaskLeft = [⟨190, 190, 190⟩] := rfl
  refine ⟨?_, rfl, ?_, ?_⟩
  · simp only [V2.check_white_background, hl]
    norm_num [avgChannel]
  · simp only [specBright, hl]
    norm_num [avgChannel]
  · simp only [specBalanced, hl]
    norm_num [avgChannel]

/-- C6 (amended): the background-whiteness criterion fails on an empty
background pixel set; otherwise the simple pipeline passes iff every
channel mean exceeds 180, and the mask-based pipeline passes iff every
channel mean exceeds 200 and the spread between the largest and smallest
channel mean stays below 20 (so a bright but tinted background fails). -/
theorem c6_background_white_characterization (img : Image) (b : BBox)
    (mask : Nat → Nat → Bool) :
    V1.check_background_white img b =
      (specBgNonempty1 img b && specBright (V1.bgPixels img b) 180) ∧
    V2.check_white_background img mask =
      (specBgNonempty2 img mask && specBright (V2.bgPixelsMask img mask) 200 &&
        specBalanced (V2.bgPixelsMask img mask) 20) := by
  constructor
  · unfold V1.check_background_white specBgNonempty1 specBright
    cases hbg : V1.bgPixels img b with
    | nil => simp
    | cons p l => simp
  · unfold V2.check_white_background specBgNonempty2 specBright specBalanced
    cases hbg : V2.bgPixelsMask img mask with
    | nil => simp
    | cons p l => simp [Bool.and_assoc]

/-- Ratio threshold tests are monotone in the numerator when the
denominator is non-negative and the threshold positive. -/
theorem ratio_ge_mono (a1 a2 thr A : ℚ) (hA : 0 ≤ A) (h12 : a1 ≤ a2)
    (hthr : 0 < thr) (h : a1 / A ≥ thr) : a2 / A ≥ thr := by
  rcases eq_or_lt_of_le hA with hA0 | hApos
  · rw [← hA0, div_zero] at h
    linarith
  · calc thr ≤ a1 / A := h
      _ ≤ a2 / A := by gcongr

/-- C9: the size criteria are monotone — holding the image size fixed, a
bounding box of at least the passing box's area also passes the version-1
check, and a mask with at least as many car pixels also passes the
version-2 check. -/
theorem c9_size_ratio_monotone (h w : Nat) (b1 b2 : BBox)
    (mask1 mask2 : Nat → Nat → Bool)
    (hbox : (b1.x2 - b1.x1) * (b1.y2 - b1.y1) ≤ (b2.x2 - b2.x1) * (b2.y2 - b2.y1))
    (hmask : ((grid h w).filter fun yx => mask1 yx.1 yx.2).length ≤
             ((grid h w).filter fun yx => mask2 yx.1 yx.2).length) :
    (V1.check_size_ratio b1 h w = true → V1.check_size_ratio b2 h w = true) ∧
    (V2.check_area_ratio h w mask1 = true → V2.check_area_ratio h w mask2 = true) := by
  constructor
  · unfold V1.check_size_ratio
    intro hc
    rw [decide_eq_true_eq] at hc ⊢
    exact ratio_ge_mono _ _ _ _ (by positivity) (by exact_mod_cast hbox)
      (by norm_num) hc
  · unfold V2.check_area_ratio
    intro hc
    rw [decide_eq_true_eq] at hc ⊢
    exact ratio_ge_mono _ _ _ _ (by positivity) (by exact_mod_cast hmask)
      (by norm_num) hc

/-- Witness for C9 on a 2×2 image: the half-area box `(0,0,1,2)` passes and
so does the larger full box `(0,0,2,2)`; an all-true mask passes and so
does the identical mask. -/
theorem c9_size_ratio_monotone_witness :
    V1.check_size_ratio ⟨0, 0, 1, 2⟩ 2 2 = true ∧
    V1.check_size_ratio ⟨0, 0, 2, 2⟩ 2 2 = true ∧
    V2.check_area_ratio 2 2 (fun _ _ => true) = true := by
  have hw1 : V1.check_size_ratio ⟨0, 0, 1, 2⟩ 2 2 = true := by
    unfold V1.check_size_ratio
    rw [decide_eq_true_eq]
    norm_num
  have hw3 : V2.check_area_ratio 2 2 (fun _ _ => true) = true := by
    unfold V2.check_area_ratio
    show decide ((((4 : Nat) : ℚ)) / (((4 : Nat) : ℚ)) ≥ 0.20) = true
    rw [decide_eq_true_eq]
    norm_num
  have h := c9_size_ratio_monotone 2 2 ⟨0, 0, 1, 2⟩ ⟨0, 0, 2, 2⟩
    (fun _ _ => true) (fun _ _ => true) (by decide) (by decide)
  exact ⟨hw1, h.1 hw1, h.2 hw3⟩

/-- C1: whenever a car was detected and all criterion evaluators ran, the
verdict is "Yes" iff every criterion in the attached criteria dict is
true, and the verdict is always either "Yes" or "No" (so any false
criterion forces "No") — in both heuristic pipelines. -/
theorem c1_result_yes_iff_all_criteria (img : Image) (b : BBox) :
    ((V1.verify_image img (some b)).result = "Yes" ↔
      allTrueOpt1 (V1.verify_image img (some b)).criteria = true) ∧
    ((V1.verify_image img (some b)).result = "Yes" ∨
      (V1.verify_image img (some b)).result = "No") ∧
    ((V2.verify_image img (some b) V2.Mode.detailed).result = "Yes" ↔
      allTrueOpt2 (V2.verify_image img (some b) V2.Mode.detailed).criteria = true) ∧
    ((V2.verify_image img (some b) V2.Mode.detailed).result = "Yes" ∨
      (V2.verify_image img (some b) V2.Mode.detailed).result = "No") := by
  refine ⟨?_, ?_, ?_, ?_⟩
  · simp only [V1.verify_image, allTrueOpt1]
    cases V1.check_size_ratio b img.h img.w <;>
      cases V1.check_background_white img b <;>
      cases V1.heuristic_orientation_check b <;>
      cases V1.check_car_orientation_left b img.w <;>
      simp [V1.Criteria.allTrue, no_ne_yes]
  · simp only [V1.verify_image]
    cases V1.check_size_ratio b img.h img.w &&
        V1.check_background_white img b &&
        V1.heuristic_orientation_check b &&
        V1.check_car_orientation_left b img.w <;> simp
  · simp only [V2.verify_image, allTrueOpt2]
    cases V2.check_area_ratio img.h img.w (V2.segment_car img b) <;>
      cases V2.check_white_background img (V2.segment_car img b) <;>
      cases (V2.classify_orientation img.w b).side_view <;>
      cases (V2.classify_orientation img.w b).facing_left <;>
      simp [V2.Criteria.allTrue, no_ne_yes]
  · simp only [V2.verify_image]
    cases V2.check_area_ratio img.h img.w (V2.segment_car img b) &&
        V2.check_white_background img (V2.segment_car img b) &&
        (V2.classify_orientation img.w b).side_view &&
        (V2.classify_orientation img.w b).facing_left <;> simp

/-- C2: whenever detection succeeded and the verdict is "No", the failure
reasons are exactly the spec's fixed-order list — size, background, side
view, facing direction, one fixed sentence per failing criterion — and
that list is non-empty; in both heuristic pipelines (version 2 in either
output mode). -/
theorem c2_failure_reasons_fixed_order (img : Image) (b : BBox) (mode : V2.Mode) :
    ((V1.verify_image img (some b)).result = "No" →
      (V1.verify_image img (some b)).failure_reasons =
        some (specReasonsV1 (V1.check_size_ratio b img.h img.w)
          (V1.check_background_white img b)
          (V1.heuristic_orientation_check b)
          (V1.check_car_orientation_left b img.w)) ∧
      specReasonsV1 (V1.check_size_ratio b img.h img.w)
        (V1.check_background_white img b)
        (V1.heuristic_orientation_check b)
        (V1.check_car_orientation_left b img.w) ≠ []) ∧
    ((V2.verify_image img (some b) mode).result = "No" →
      (V2.verify_image img (some b) mode).failure_reasons =
        some (specReasonsV2 (V2.check_area_ratio img.h img.w (V2.segment_car img b))
          (V2.check_white_background img (V2.segment_car img b))
          ((V2.classify_orientation img.w b).side_view)
          ((V2.classify_orientation img.w b).facing_left)) ∧
      specReasonsV2 (V2.check_area_ratio img.h img.w (V2.segment_car img b))
        (V2.check_white_background img (V2.segment_car img b))
        ((V2.classify_orientation img.w b).side_view)
        ((V2.classify_orientation img.w b).facing_left) ≠ []) := by
  constructor
  · simp only [V1.verify_image, specReasonsV1]
    cases V1.check_size_ratio b img.h img.w <;>
      cases V1.check_background_white img b <;>
      cases V1.heuristic_orientation_check b <;>
      cases V1.check_car_orientation_left b img.w <;>
      simp [no_ne_yes.symm]
  · simp only [V2.verify_image, specReasonsV2]
    cases V2.check_area_ratio img.h img.w (V2.segment_car img b) <;>
      cases V2.check_white_background img (V2.segment_car img b) <;>
      cases (V2.classify_orientation img.w b).side_view <;>
      cases (V2.classify_orientation img.w b).facing_left <;>
      simp [no_ne_yes.symm]

/-- On the all-black 1×2 image with the unit box, the default segmentation
keeps exactly the box pixel `(0, 0)`. -/
theorem segment_car_blackImg_eval :
    V2.segment_car blackImg unitBox = fun y x => decide (y = 0) && decide (x = 0) := by
  funext y x
  simp only [V2.segment_car]
  have hUF : decide ((((V2.boxRegion blackImg unitBox).filter fun yx =>
      !V2.veryWhite (blackImg.pix yx.1 yx.2)).length : ℚ) <
      ((V2.boxRegion blackImg unitBox).length : ℚ) * 0.6) = false := by
    have h1 : ((V2.boxRegion blackImg unitBox).filter fun yx =>
        !V2.veryWhite (blackImg.pix yx.1 yx.2)).length = 1 := rfl
    have h2 : (V2.boxRegion blackImg unitBox).length = 1 := rfl
    rw [h1, h2]
    norm_num
  rw [hUF]
  rw [Bool.eq_iff_iff]
  simp only [Bool.and_eq_true, Bool.or_eq_true, decide_eq_true_eq, Bool.false_or,
    Bool.not_eq_true', insideBox, blackImg, unitBox, V2.veryWhite]
  constructor
  · rintro ⟨⟨hy, hx, h3⟩, h4⟩
    omega
  · rintro ⟨hy, hx⟩
    refine ⟨⟨?_, ?_, ?_⟩, ?_⟩ <;> simp_all

/-- Values of the four version-1 criterion evaluators on the all-black 1×2
image with the unit box: size passes (half the image), the rest fail. -/
theorem blackImg_checks_v1 :
    V1.check_size_ratio unitBox blackImg.h blackImg.w = true ∧
    V1.check_background_white blackImg unitBox = false ∧
    V1.heuristic_orientation_check unitBox = false ∧
    V1.check_car_orientation_left unitBox blackImg.w = false := by
  refine ⟨?_, ?_, ?_, ?_⟩
  · unfold V1.check_size_ratio
    rw [decide_eq_true_eq]
    norm_num [unitBox, blackImg]
  · have hl : V1.bgPixels blackImg unitBox = [⟨0, 0, 0⟩] := rfl
    simp only [V1.check_background_white, hl]
    norm_num [avgChannel]
  · unfold V1.heuristic_orientation_check V1.aspectRatio
    rw [decide_eq_false_iff_not]
    norm_num [unitBox]
  · unfold V1.check_car_orientation_left
    rw [show (unitBox.x1 + unitBox.x2).fdiv 2 = 0 from rfl]
    rw [decide_eq_false_iff_not]
    norm_num

/-- Values of the version-2 criterion evaluators on the all-black 1×2 image
with the unit box: area passes, background and orientation fail. -/
theorem blackImg_checks_v2 :
    V2.check_area_ratio blackImg.h blackImg.w (V2.segment_car blackImg unitBox) = true ∧
    V2.check_white_background blackImg (V2.segment_car blackImg unitBox) = false ∧
    (V2.classify_orientation blackImg.w unitBox).side_view = false ∧
    (V2.classify_orientation blackImg.w unitBox).facing_left = false := by
  have ha : V2.aspect_ratio_of unitBox = 1 := by
    unfold V2.aspect_ratio_of
    norm_num [unitBox]
  refine ⟨?_, ?_, ?_, ?_⟩
  · rw [segment_car_blackImg_eval]
    unfold V2.check_area_ratio
    show decide ((((1 : Nat) : ℚ)) / (((2 : Nat) : ℚ)) ≥ 0.20) = true
    rw [decide_eq_true_eq]
    norm_num
  · rw [segment_car_blackImg_eval]
    have hl : V2.bgPixelsMask blackImg (fun y x => decide (y = 0) && decide (x = 0)) =
        [⟨0, 0, 0⟩] := rfl
    simp only [V2.check_white_background, hl]
    norm_num [avgChannel]
  · unfold V2.classify_orientation
    rw [ha]
    norm_num
  · unfold V2.classify_orientation
    rw [ha]
    norm_num

/-- Witness for C2 on the all-black 1×2 image with the unit box: both
pipelines return "No" with the three reasons for background, side view and
facing direction, in the fixed order, omitting the passing size check. -/
theorem c2_failure_reasons_witness :
    (V1.verify_image blackImg (some unitBox)).result = "No" ∧
    (V1.verify_image blackImg (some unitBox)).failure_reasons =
      some ["Background is not sufficiently white",
        "Car does not appear to be in side view (width/height ratio)",
        "Car does not appear to be facing left"] ∧
    (V2.verify_image blackImg (some unitBox) V2.Mode.detailed).result = "No" ∧
    (V2.verify_image blackImg (some unitBox) V2.Mode.detailed).failure_reasons =
      some ["Background is not sufficiently white",
        "Car does not appear to be in side view",
        "Car does not appear to be facing left"] := by
  obtain ⟨e1, e2, e3, e4⟩ := blackImg_checks_v1
  obtain ⟨f1, f2, f3, f4⟩ := blackImg_checks_v2
  have hres1 : (V1.verify_image blackImg (some unitBox)).result = "No" := by
    simp [V1.verify_image, e1, e2, e3, e4]
  have hres2 : (V2.verify_image blackImg (some unitBox) V2.Mode.detailed).result = "No" := by
    simp [V2.verify_image, f1, f2, f3, f4]
  have h := c2_failure_reasons_fixed_order blackImg unitBox V2.Mode.detailed
  have h1 := (h.1 hres1).1
  rw [e1, e2, e3, e4] at h1
  have h2 := (h.2 hres2).1
  rw [f1, f2, f3, f4] at h2
  refine ⟨hres1, ?_, hres2, ?_⟩
  · rw [h1]
    rfl
  · rw [h2]
    rfl

end CarVal
